import Mathlib

/-!
Verification of the chug document-annotation pipeline
(`src/chug/webdataset/doc_anno_pipe.py` and `src/chug/wds/helpers.py`)
against its natural-language specification.

The Python code is shallowly embedded: samples are association lists from
field names to field values, PIL images are a small inductive type capturing
exactly the attributes the code uses (`n_frames`, `seek`, `load`, `convert`),
fallible code returns `Except PyErr`, and the generator `_decode_samples` is
modelled as a function from the input list to the full observable outcome
(yielded records, a possibly propagated exception, and the number of input
samples consumed).
-/

/-- Python exceptions distinguished by the code paths under verification. -/
inductive PyErr where
  | keyError
  | typeError
  | attributeError
  | assertionError (msg : String)
  | eofError
  | indexError
  | valueError
  | decodeError
  deriving DecidableEq

/-- A raw field of a webdataset sample: raster image bytes (represented by the
list of per-frame pixel contents of the container they decode to), pdf bytes
(per-page contents), or text (used for `json`, `__key__`, `__url__`). -/
inductive FieldVal where
  | raster (frames : List Nat)
  | pdfBytes (pages : List Nat)
  | text (s : String)
  deriving DecidableEq

/-- A webdataset sample: a mapping from field name to value
(`RawSample` in the spec). -/
abbrev Sample := List (String × FieldVal)

/-- `sample.get(k)` / `k in sample`: first binding wins. -/
def sampleGet : Sample → String → Option FieldVal
  | [], _ => none
  | p :: rest, k => if p.1 = k then some p.2 else sampleGet rest k

/-- The image values flowing through `_decode_image_pages`:
`container` is an open PIL file image (frame list plus current frame),
`converted` is the single-frame result of `Image.convert`, and
`processed` is the opaque output of the externally supplied
`image_preprocess` transform (a single transformed page image, per the
spec call contract: not a PIL image, with no `seek`/`load` attributes and
not iterable). -/
inductive PyImg where
  | container (frames : List Nat) (cur : Nat)
  | converted (pix : Nat)
  | processed (pix : Nat)
  deriving DecidableEq

/-- `getattr(image, 'n_frames', 1)`: only the open container carries a
frame count attribute; every other image defaults to 1. -/
def nFrames : PyImg → Nat
  | .container frames _ => frames.length
  | _ => 1

/-- `image.seek(i)`: in-range frame selection on the multi-frame container,
frame 0 only on a plain single-frame PIL image (base `Image.seek` raises
`EOFError` otherwise), `AttributeError` on the preprocessed output. -/
def PyImg.seek : PyImg → Nat → Except PyErr PyImg
  | .container frames _, i =>
    if i < frames.length then .ok (.container frames i) else .error .eofError
  | .converted p, i => if i = 0 then .ok (.converted p) else .error .eofError
  | .processed _, _ => .error .attributeError

/-- `image.load()`: a no-op on PIL images, `AttributeError` on the
preprocessed output. -/
def PyImg.load : PyImg → Except PyErr PyImg
  | .container frames cur => .ok (.container frames cur)
  | .converted p => .ok (.converted p)
  | .processed _ => .error .attributeError

/-- `image.convert(fmt)`: returns a new single-frame image holding the
current frame's content (the mode change itself is irrelevant to the
verified claims), `AttributeError` on the preprocessed output. -/
def PyImg.convert : PyImg → String → Except PyErr PyImg
  | .container frames cur, _ => .ok (.converted (frames.getD cur 0))
  | .converted p, _ => .ok (.converted p)
  | .processed _, _ => .error .attributeError

/-- Modelled from the spec: the externally supplied `image_preprocess`
callable (decoded-page-image → transformed-page-image).  It returns one
opaque transformed page image carrying the content of its input. -/
def image_preprocess : PyImg → PyImg
  | .container frames cur => .processed (frames.getD cur 0)
  | .converted p => .processed p
  | .processed p => .processed p

/-- `Image.open(BytesIO(...))`: raster bytes open as a container positioned
at frame 0; anything else is not a recognizable image. -/
def openImage : FieldVal → Except PyErr PyImg
  | .raster frames => .ok (.container frames 0)
  | _ => .error .decodeError

/-- The per-page loop of `_decode_image_pages` (lines 69-85).  The loop
variable `image` is reassigned to the converted and then preprocessed
image on each iteration, so the second iteration calls `seek`/`load` on the
previous iteration's `image_preprocess` output. -/
def pageLoop (image_fmt : Option String) (num_image_pages num_anno_pages : Nat) :
    List Nat → PyImg → Except PyErr PyImg
  | [], image => .ok image
  | page_index :: rest, image =>
    match (if num_image_pages > 1 then
            PyImg.seek image page_index
          else if num_anno_pages = 1 then
            PyImg.load image
          else
            .error (.assertionError "num_anno_pages == 1")) with
    | .error e => .error e
    | .ok image1 =>
      match (match image_fmt with
             | some fmt => PyImg.convert image1 fmt
             | none => .ok image1) with
      | .error e => .error e
      | .ok image2 =>
        pageLoop image_fmt num_image_pages num_anno_pages rest (image_preprocess image2)

deriving instance DecidableEq for Except

/-- Outcome of `_decode_image_pages`: the returned value (source line 87
returns the bare final `image` together with `num_image_pages`, not the
`pages` list, which is dead: `pages += [image]` sits outside the loop) and
the number of warning log entries emitted. -/
structure ImgDecodeOut where
  result : Except PyErr (PyImg × Nat)
  warnings : Nat
  deriving DecidableEq

/-- `DocProcessor._decode_image_pages` (lines 54-87).  The mismatch warning
f-string reads `sample["__url__"]` and `sample["__key__"]`, so a sample
missing either raises `KeyError` when the warning fires. -/
def decode_image_pages (image_fmt : Option String) (sample : Sample) (ext : String)
    (page_indices : List Nat) (num_anno_pages : Nat) : ImgDecodeOut :=
  match sampleGet sample ext with
  | none => ⟨.error .keyError, 0⟩
  | some fv =>
    match openImage fv with
    | .error e => ⟨.error e, 0⟩
    | .ok image =>
      let num_image_pages := nFrames image
      if num_image_pages ≠ num_anno_pages then
        if (sampleGet sample "__url__").isSome && (sampleGet sample "__key__").isSome then
          match pageLoop image_fmt num_image_pages num_anno_pages page_indices image with
          | .error e => ⟨.error e, 1⟩
          | .ok final => ⟨.ok (final, num_image_pages), 1⟩
        else ⟨.error .keyError, 0⟩
      else
        match pageLoop image_fmt num_image_pages num_anno_pages page_indices image with
        | .error e => ⟨.error e, 0⟩
        | .ok final => ⟨.ok (final, num_image_pages), 0⟩

/-- `DocProcessor._decode_pdf_pages` (lines 89-119).  The source sets
`_USE_AGPL_PYMUPDF = False`, so `fitz` is `None` and the assertion at line
98 fails unconditionally. -/
def decode_pdf_pages (_sample : Sample) (_ext : String)
    (_page_indices : List Nat) (_num_anno_pages : Nat) : Except PyErr (List PyImg × Nat) :=
  .error (.assertionError "fitz (pymupdf) is not installed and enabled")

/-- Per-page annotation mapping: field name to one value per page
(`PageAnnotation` in the spec); page values are abstracted as `Nat`. -/
abbrev PageAnno := List (String × List Nat)

/-- Result of the externally supplied `anno_preprocess` callable: either the
page annotation alone, or a pair of page annotation and info mapping with
optional `page_indices` and `num_pages` entries. -/
inductive AnnoRes where
  | plain (pa : PageAnno)
  | withInfo (pa : PageAnno) (page_indices : Option (List Nat)) (num_pages : Option Nat)
  deriving DecidableEq

/-- A value of the decoded record: the image field (single image or page
list), an annotation value (per-page list, or its sole element after
squeezing), a raw sample field copied into the record (`__key__`), or
Python `None`. -/
inductive RecVal where
  | img (i : PyImg)
  | imgList (l : List PyImg)
  | av (n : Nat)
  | avList (l : List Nat)
  | field (f : FieldVal)
  | pyNone
  deriving DecidableEq

/-- The decoded record (`DecodedRecord` in the spec): an insertion-ordered
mapping from field name to value. -/
abbrev Record := List (String × RecVal)

/-- `json.loads(sample['json'])`: the parsed annotation is represented by
the text it was parsed from; non-text bytes are malformed JSON. -/
def jsonLoads : FieldVal → Except PyErr String
  | .text s => .ok s
  | _ => .error .decodeError

/-- `{k: v[0] for k, v in page_anno.items()}` (line 173): collapse each
per-page value sequence to its sole element; `v[0]` on an empty sequence
raises `IndexError`. -/
def squeezeAnno : PageAnno → Except PyErr (List (String × Nat))
  | [] => .ok []
  | (k, vs) :: rest =>
    match vs with
    | [] => .error .indexError
    | v :: _ =>
      match squeezeAnno rest with
      | .error e => .error e
      | .ok r => .ok ((k, v) :: r)

/-- The `for ext in self.image_ext: if ext in sample:` loop head (lines
147-148): first configured extension present in the sample. -/
def firstPresentExt (sample : Sample) : List String → Option String
  | [] => none
  | ext :: rest =>
    if (sampleGet sample ext).isSome then some ext else firstPresentExt sample rest

/-- `'tif;tiff;png'.split(';')`: the default image extension priority list. -/
def default_image_ext : List String := ["tif", "tiff", "png"]

/-- `DocProcessor.__call__` (lines 121-176).  `anno_preprocess` is the
externally supplied annotation transform (its PRNG argument is irrelevant
to the verified claims and elided).  Notable source behaviors embedded
faithfully:
  * an `anno_preprocess` exception is logged with `sample["__url__"]` and
    `sample["__key__"]` before being re-raised, so a sample missing either
    field turns the error into a `KeyError`;
  * only the first present image extension is consumed;
  * for a non-pdf extension, `_decode_image_pages` returns the bare final
    image (not a page list), so `page_images.extend(images)` at line 164
    extends a list with a non-iterable transformed page image, which
    raises `TypeError`;
  * `assert len(page_images)` (line 168) covers the no-image-field case,
    because the loop then never runs and `page_images` stays `[]`. -/
def doc_call (anno_preprocess : String → Except PyErr AnnoRes)
    (image_ext : List String) (image_fmt : Option String) (squeeze_pages : Bool)
    (sample : Sample) : Except PyErr Record :=
  match sampleGet sample "json" with
  | none => .error .keyError
  | some jf =>
    match jsonLoads jf with
    | .error e => .error e
    | .ok anno =>
      match anno_preprocess anno with
      | .error e =>
        if (sampleGet sample "__url__").isSome && (sampleGet sample "__key__").isSome then
          .error e
        else
          .error .keyError
      | .ok annoRes =>
        let page_anno : PageAnno :=
          match annoRes with
          | .withInfo pa _ _ => pa
          | .plain pa => pa
        let page_indices : List Nat :=
          match annoRes with
          | .withInfo _ pi _ => pi.getD [0]
          | .plain _ => [0]
        let num_anno_pages : Nat :=
          match annoRes with
          | .withInfo _ _ np => np.getD 1
          | .plain _ => 1
        let num_decode_pages := page_indices.length
        match firstPresentExt sample image_ext with
        | none => .error (.assertionError "No page images present")
        | some ext =>
          let decoded : Except PyErr (List PyImg) :=
            if ext = "pdf" then
              match decode_pdf_pages sample ext page_indices num_anno_pages with
              | .error e => .error e
              | .ok (images, _) => .ok images
            else
              match (decode_image_pages image_fmt sample ext page_indices num_anno_pages).result with
              | .error e => .error e
              | .ok (_image, _n) => .error .typeError
          match decoded with
          | .error e => .error e
          | .ok page_images =>
            match page_images with
            | [] => .error (.assertionError "No page images present")
            | i0 :: restImgs =>
              if squeeze_pages && num_decode_pages == 1 then
                match squeezeAnno page_anno with
                | .error e => .error e
                | .ok sq => .ok (("image", RecVal.img i0) :: sq.map (fun p => (p.1, RecVal.av p.2)))
              else
                .ok (("image", RecVal.imgList (i0 :: restImgs)) ::
                  page_anno.map (fun p => (p.1, RecVal.avList p.2)))

/-- What an error handler does with an exception: return a truthiness value
(`ret true` means skip-and-continue, `ret false` means stop), or re-raise
an exception of its own. -/
inductive HandlerAct where
  | ret (b : Bool)
  | raise (e : PyErr)
  deriving DecidableEq

/-- `log_and_continue` (helpers.py lines 79-82): log a warning and return
`True` for every exception. -/
def log_and_continue : PyErr → HandlerAct := fun _ => .ret true

/-- `dump_and_reraise` (helpers.py lines 84-91): log the traceback twice and
re-raise the exception unconditionally. -/
def dump_and_reraise : PyErr → HandlerAct := fun e => .raise e

/-- `_error_handlers` (helpers.py lines 93-101).  The webdataset handlers
are external collaborators, modelled from their documented behavior:
`ignore_and_continue`/`warn_and_continue` return `True`,
`ignore_and_stop`/`warn_and_stop` return `False`, and `reraise_exception`
re-raises. -/
def error_handlers : List (String × (PyErr → HandlerAct)) :=
  [("log_and_continue", log_and_continue),
   ("ignore_and_continue", fun _ => .ret true),
   ("warn_and_continue", fun _ => .ret true),
   ("ignore_and_stop", fun _ => .ret false),
   ("warn_and_stop", fun _ => .ret false),
   ("dump_and_reraise", dump_and_reraise),
   ("reraise_exception", fun e => .raise e)]

/-- Registry lookup by name (first match). -/
def lookupHandler : List (String × (PyErr → HandlerAct)) → String → Option (PyErr → HandlerAct)
  | [], _ => none
  | p :: rest, name => if p.1 = name then some p.2 else lookupHandler rest name

/-- `get_error_handler` (helpers.py lines 103-104): `dict.get` with
`dump_and_reraise` as the default for unrecognized names. -/
def get_error_handler (name : String) : PyErr → HandlerAct :=
  match lookupHandler error_handlers name with
  | some h => h
  | none => dump_and_reraise

/-- `sample.get("__key__")` copied into the result record:
a missing key stores Python `None`. -/
def keyVal : Option FieldVal → RecVal
  | none => .pyNone
  | some f => .field f

/-- `result[k] = v` on a Python dict: update the existing binding in place,
or append a new binding at the end. -/
def dictSet : Record → String → RecVal → Record
  | [], k, v => [(k, v)]
  | p :: rest, k, v => if p.1 = k then (k, v) :: rest else p :: dictSet rest k v

/-- `record.get(k)` on the decoded record. -/
def dictGet : Record → String → Option RecVal
  | [], _ => none
  | p :: rest, k => if p.1 = k then some p.2 else dictGet rest k

/-- The full observable outcome of running the `_decode_samples` generator
to completion: the records it yielded, the exception it propagated (if the
handler re-raised), and how many input samples it consumed. -/
structure StreamOut where
  yielded : List Record
  raised : Option PyErr
  consumed : Nat
  deriving DecidableEq

/-- `_decode_samples` (doc_anno_pipe.py lines 179-198).  The decoder either
raises (`Except.error`), returns `None` (`ok none`, skipped without
yielding), or returns a record; on a decoder exception the handler decides
between `continue` (truthy return), `break` (falsy return), and
re-raising.  On success, `result["__key__"] = sample.get("__key__")` runs
before the yield (sample and result are both mappings in this pipeline). -/
def decodeSamples (dec : Sample → Except PyErr (Option Record))
    (handler : PyErr → HandlerAct) : List Sample → StreamOut
  | [] => ⟨[], none, 0⟩
  | s :: rest =>
    match dec s with
    | .error e =>
      match handler e with
      | .ret true =>
        let o := decodeSamples dec handler rest
        ⟨o.yielded, o.raised, o.consumed + 1⟩
      | .ret false => ⟨[], none, 1⟩
      | .raise e2 => ⟨[], some e2, 1⟩
    | .ok none =>
      let o := decodeSamples dec handler rest
      ⟨o.yielded, o.raised, o.consumed + 1⟩
    | .ok (some r) =>
      let o := decodeSamples dec handler rest
      ⟨dictSet r "__key__" (keyVal (sampleGet s "__key__")) :: o.yielded, o.raised, o.consumed + 1⟩

/-- The records a fully-skipping run of `_decode_samples` yields: one per
successfully decoded sample, in input order, each with `__key__` copied
from its sample. -/
def successRecords (dec : Sample → Except PyErr (Option Record)) : List Sample → List Record
  | [] => []
  | s :: rest =>
    match dec s with
    | .ok (some r) => dictSet r "__key__" (keyVal (sampleGet s "__key__")) :: successRecords dec rest
    | _ => successRecords dec rest

/-- Split a character list on every non-overlapping left-to-right occurrence
of a double colon, as Python `str.split("::")` does. -/
def splitCC : List Char → List (List Char)
  | [] => [[]]
  | [c] => [[c]]
  | c1 :: c2 :: rest =>
    if c1.toNat == 58 && c2.toNat == 58 then
      [] :: splitCC rest
    else
      match splitCC (c2 :: rest) with
      | [] => [[c1]]
      | g :: gs => (c1 :: g) :: gs

/-- `urls.split("::")` / `weights.split("::")`. -/
def splitDoubleColon (s : String) : List String :=
  (splitCC s.data).map String.mk

/-- Digits-only accumulator for `parseNat?`. -/
def parseNatCore : List Char → Nat → Option Nat
  | [], acc => some acc
  | c :: rest, acc =>
    if c.isDigit then parseNatCore rest (acc * 10 + (c.toNat - 48)) else none

/-- Parse a nonempty all-digit character list as a natural number. -/
def parseNat? : List Char → Option Nat
  | [] => none
  | c :: rest => parseNatCore (c :: rest) 0

/-- Split a character list at the first occurrence of the character with
the given code point, returning the parts before and after it. -/
def splitAtChar (target : Nat) : List Char → Option (List Char × List Char)
  | [] => none
  | c :: rest =>
    if c.toNat == target then some ([], rest)
    else
      match splitAtChar target rest with
      | some (pre, post) => some (c :: pre, post)
      | none => none

/-- Parse `lo..hi` from the text between braces. -/
def rangeSplit (cs : List Char) : Option (Nat × Nat) :=
  match splitAtChar 46 cs with
  | none => none
  | some (lo, rest) =>
    match rest with
    | [] => none
    | c :: rest2 =>
      if c.toNat == 46 then
        match parseNat? lo, parseNat? rest2 with
        | some a, some b => some (a, b)
        | _, _ => none
      else none

/-- Modelled from the spec: the external `braceexpand` library
("Brace expansion: shorthand notation (e.g. \x7b1..3\x7d) expanding to an
enumerated list of literal strings").  This model supports one numeric
range pattern per string; a string with no well-formed pattern expands to
itself. -/
def braceExpand (s : String) : List String :=
  match splitAtChar 123 s.data with
  | none => [s]
  | some (pre, rest) =>
    match splitAtChar 125 rest with
    | none => [s]
    | some (mid, post) =>
      match rangeSplit mid with
      | none => [s]
      | some (lo, hi) =>
        if lo ≤ hi then
          (List.range (hi + 1 - lo)).map (fun k => String.mk (pre ++ (Nat.repr (lo + k)).data ++ post))
        else [s]

/-- `[float(weight) for weight in weights]`, restricted to nonnegative
integer literals (sufficient for every verified claim); a non-numeric
string raises `ValueError`. -/
def parseWeights : List String → Except PyErr (List Nat)
  | [] => .ok []
  | s :: rest =>
    match parseNat? s.data with
    | none => .error .valueError
    | some n =>
      match parseWeights rest with
      | .error e => .error e
      | .ok ns => .ok (n :: ns)

/-- The assertion message of `expand_urls` (helpers.py lines 31-32). -/
def count_mismatch_msg : String :=
  "Expected the number of data components and weights to match"

/-- `expand_urls(urls, weights)` (helpers.py lines 23-43) for the
string-urls, non-`None`-weights branch actually embedded here: split both
arguments on `::`, assert equal counts, convert weights to numbers,
brace-expand each url group and replicate its weight across the expansion,
extending flat accumulator lists in group order.  The brace-expansion
function is a parameter (the external `braceexpand` library).  The
weights-`None` branch delegates wholesale to the external
`wds.shardlists.expand_urls` and is out of scope. -/
def expand_urls_weighted (be : String → List String) (urls weights : String) :
    Except PyErr (List String × List Nat) :=
  let urllist := splitDoubleColon urls
  let wstrs := splitDoubleColon weights
  if wstrs.length = urllist.length then
    match parseWeights wstrs with
    | .error e => .error e
    | .ok ws =>
      .ok ((urllist.zip ws).foldl
        (fun acc p => (acc.1 ++ be p.1, acc.2 ++ (be p.1).map (fun _ => p.2)))
        ([], []))
  else .error (.assertionError count_mismatch_msg)

/-- Concatenation of the images of `f` over a list, in order. -/
def concatMapL (f : α → List β) : List α → List β
  | [] => []
  | a :: l => f a ++ concatMapL f l

/-- The environment consulted by the `pytorch_worker_seed` fallback path:
`RANK`/`WORLD_SIZE` (used only when both are set) and
`WORKER`/`NUM_WORKERS` (likewise). -/
structure EnvVars where
  rankWorld : Option (Int × Int)
  workerNum : Option (Int × Int)

/-- The worker context an active dataloader would provide
(`get_worker_info()`). -/
structure WorkerInfo where
  seed : Int
  numWorkers : Int

/-- `pytorch_worker_seed` (helpers.py lines 46-76).  `increment` is the
plain integer value (a `SharedCount` argument contributes exactly
`increment.get_value()`); `if increment_value:` is Python integer
truthiness, i.e. a nonzero test. -/
def pytorch_worker_seed (worker_info : Option WorkerInfo) (env : EnvVars)
    (increment : Int) : Int :=
  match worker_info with
  | some wi =>
    let seed := wi.seed
    if increment ≠ 0 then seed + increment * max 1 wi.numWorkers else seed
  | none =>
    let rw := env.rankWorld.getD (0, 1)
    let wn := env.workerNum.getD (0, 1)
    let seed := rw.1 * max 1024 rw.2 + wn.1
    if increment ≠ 0 then seed + increment * max 1024 wn.2 else seed

/-- The `anno_preprocess` used in the multi-page fixture: two pages
requested (`page_indices=[0,1]`, `num_pages=2`). -/
def c1_anno : String → Except PyErr AnnoRes :=
  fun _ => .ok (.withInfo [("text", [1, 2])] (some [0, 1]) (some 2))

/-- A well-formed two-frame raster sample. -/
def c1_sample : Sample :=
  [("__key__", .text "k0"), ("__url__", .text "u0"), ("json", .text "a"),
   ("tif", .raster [10, 20])]

/-- A single-frame raster sample (used against a mismatched annotation
page count). -/
def c2_sample : Sample :=
  [("__key__", .text "k2"), ("__url__", .text "u2"), ("tif", .raster [5])]

/-- A two-frame raster sample for the multi-frame mismatch witness. -/
def c2w_sample : Sample :=
  [("__key__", .text "kw"), ("__url__", .text "uw"), ("tif", .raster [5, 6])]

/-- The `anno_preprocess` used in the single-page fixture
(`num_pages=1`, `page_indices=[0]`). -/
def c3_anno : String → Except PyErr AnnoRes :=
  fun _ => .ok (.withInfo [("text", [3]), ("target", [4])] (some [0]) (some 1))

/-- A well-formed single-frame raster sample. -/
def c3_sample : Sample :=
  [("__key__", .text "k3"), ("__url__", .text "u3"), ("json", .text "a"),
   ("tif", .raster [7])]

/-- A plain annotation transform for the missing-image fixture. -/
def c4_anno : String → Except PyErr AnnoRes :=
  fun _ => .ok (.plain [("text", [5])])

/-- A sample carrying an annotation but none of the configured image
extensions. -/
def c4_noimg_sample : Sample :=
  [("__key__", .text "n0"), ("__url__", .text "u"), ("json", .text "a")]

/-- `DocProcessor.__call__` with default configuration, as the decoder
handed to `_decode_samples` by `create_doc_anno_pipe`. -/
def c4_dec : Sample → Except PyErr (Option Record) :=
  fun s => match doc_call c4_anno default_image_ext (some "L") true s with
    | .error e => .error e
    | .ok r => .ok (some r)

/-- A sample a generic decoder succeeds on. -/
def c4_gs : Sample := [("__key__", .text "g1"), ("v", .text "ok")]

/-- The record the generic decoder returns. -/
def c4_grec : Record := [("text", RecVal.av 9)]

/-- A decoder that always succeeds with `c4_grec`. -/
def c4_gdec : Sample → Except PyErr (Option Record) := fun _ => .ok (some c4_grec)

/-- Three-sample fixture: samples 1 and 3 decode, sample 2 raises. -/
def c5_s1 : Sample := [("__key__", .text "s1"), ("v", .text "1")]

/-- The failing middle sample of the three-sample fixture. -/
def c5_s2 : Sample := [("__key__", .text "s2"), ("bad", .text "x")]

/-- The third sample of the three-sample fixture. -/
def c5_s3 : Sample := [("__key__", .text "s3"), ("v", .text "3")]

/-- A decoder raising exactly on samples carrying a `bad` field. -/
def c5_dec (s : Sample) : Except PyErr (Option Record) :=
  match sampleGet s "bad" with
  | some _ => .error .valueError
  | none => .ok (some [("text", RecVal.field ((sampleGet s "v").getD (.text "")))])

/-- A decoder that raises on every sample. -/
def c6_dec : Sample → Except PyErr (Option Record) := fun _ => .error .valueError

/-- A sample for the stop-handler fixture. -/
def c6_s : Sample := [("__key__", .text "b1")]

/-- A handler that signals stop by returning a falsy value. -/
def stop_handler : PyErr → HandlerAct := fun _ => .ret false

/-- A decoder whose result already carries a `__key__` entry, to observe the
adapter overwriting it. -/
def c10_dec : Sample → Except PyErr (Option Record) :=
  fun _ => .ok (some [("__key__", RecVal.av 99), ("text", RecVal.av 1)])

/-- A sample with no `__key__` field. -/
def c10_sample : Sample := [("v", .text "x")]

theorem dictGet_dictSet (r : Record) (k : String) (v : RecVal) :
    dictGet (dictSet r k v) k = some v := by
  induction r with
  | nil => simp [dictSet, dictGet]
  | cons p rest ih =>
    by_cases h : p.1 = k
    · simp [dictSet, dictGet, h]
    · simp [dictSet, dictGet, h, ih]

theorem firstPresentExt_eq_none (sample : Sample) :
    ∀ exts : List String, (∀ ext ∈ exts, sampleGet sample ext = none) →
      firstPresentExt sample exts = none := by
  intro exts
  induction exts with
  | nil => intro _; rfl
  | cons e rest ih =>
    intro h
    have he := h e (by simp)
    simp [firstPresentExt, he, ih (fun x hx => h x (by simp [hx]))]

theorem map_const_replicate (b : β) (l : List α) :
    l.map (fun _ => b) = List.replicate l.length b := by
  induction l with
  | nil => rfl
  | cons a l ih => simp [ih, List.replicate]

theorem parseWeights_length :
    ∀ (l : List String) (ws : List Nat), parseWeights l = .ok ws → ws.length = l.length := by
  intro l
  induction l with
  | nil => intro ws h; simp [parseWeights] at h; simp [h.symm]
  | cons s rest ih =>
    intro ws h
    simp only [parseWeights] at h
    cases hp : parseNat? s.data with
    | none => rw [hp] at h; exact absurd h (by simp)
    | some n =>
      rw [hp] at h
      cases hr : parseWeights rest with
      | error e => rw [hr] at h; exact absurd h (by simp)
      | ok ns =>
        rw [hr] at h
        cases h
        simp [ih ns hr]

theorem foldl_extend (be : String → List String) (l : List (String × Nat)) :
    ∀ (a1 : List String) (a2 : List Nat),
      l.foldl (fun acc p => (acc.1 ++ be p.1, acc.2 ++ (be p.1).map (fun _ => p.2))) (a1, a2) =
        (a1 ++ concatMapL (fun p => be p.1) l,
         a2 ++ concatMapL (fun p => List.replicate (be p.1).length p.2) l) := by
  induction l with
  | nil => intro a1 a2; simp [concatMapL]
  | cons p l ih =>
    intro a1 a2
    simp only [List.foldl_cons]
    rw [ih]
    simp [concatMapL, map_const_replicate, List.append_assoc]

theorem concatMap_zip_fst (be : String → List String) :
    ∀ (l : List String) (ws : List Nat), l.length = ws.length →
      concatMapL (fun p => be p.1) (l.zip ws) = concatMapL be l := by
  intro l
  induction l with
  | nil => intro ws _; simp [concatMapL]
  | cons u l ih =>
    intro ws h
    cases ws with
    | nil => simp at h
    | cons w ws =>
      have hz : (u :: l).zip (w :: ws) = (u, w) :: l.zip ws := rfl
      rw [hz]
      simp only [concatMapL]
      rw [ih ws (by simpa using h)]

/-- Claim C1: refuted as stated — for a two-frame raster sample whose
annotation preprocessing yields `page_indices = [0, 1]` (N = 2),
`DocProcessor.__call__` never returns a `DecodedRecord` with 2 images: the
second loop iteration calls `seek` on the previous iteration's
`image_preprocess` output (the loop reassigns `image`), raising
`AttributeError`; independently, `pages += [image]` sits outside the loop,
so `_decode_image_pages` can never hand back more than the final page. -/
theorem doc_call_multipage_loses_pages :
    doc_call c1_anno default_image_ext (some "L") true c1_sample = .error .attributeError
    ∧ (decode_image_pages (some "L") c1_sample "tif" [0, 1] 2).result = .error .attributeError :=
  ⟨by decide, by decide⟩

/-- Claim C2, counterexample: a single-frame raster sample whose annotation
declares `num_pages = 2` raises `AssertionError` from
`assert num_anno_pages == 1` — an exception solely because of the
count mismatch (the identical call with `num_anno_pages = 1` succeeds
with no warning) — after emitting the one warning. -/
theorem decode_image_pages_singleframe_mismatch_raises :
    decode_image_pages (some "L") c2_sample "tif" [0] 2 =
      ⟨.error (.assertionError "num_anno_pages == 1"), 1⟩
    ∧ decode_image_pages (some "L") c2_sample "tif" [0] 1 =
      ⟨.ok (.processed 5, 1), 0⟩ :=
  ⟨by decide, by decide⟩

/-- Claim C2, amended: for a raster sample whose container holds more than
one intrinsic frame, a mismatch with the annotation's declared page count
alone emits exactly one warning and raises nothing — decoding a single
in-range requested page succeeds via `page_indices`; the single-frame
container case instead hits `assert num_anno_pages == 1`. -/
theorem decode_image_pages_multiframe_mismatch_warns
    (image_fmt : Option String) (sample : Sample) (ext : String) (frames : List Nat)
    (num_anno_pages i : Nat)
    (hext : sampleGet sample ext = some (.raster frames))
    (hurl : (sampleGet sample "__url__").isSome = true)
    (hkey : (sampleGet sample "__key__").isSome = true)
    (hmulti : 1 < frames.length)
    (hne : frames.length ≠ num_anno_pages)
    (hi : i < frames.length) :
    decode_image_pages image_fmt sample ext [i] num_anno_pages =
      ⟨.ok (.processed (frames.getD i 0), frames.length), 1⟩ := by
  have hloop : pageLoop image_fmt frames.length num_anno_pages [i] (.container frames 0) =
      .ok (.processed (frames.getD i 0)) := by
    cases image_fmt with
    | none => simp [pageLoop, hmulti, hi, PyImg.seek, image_preprocess]
    | some fmt => simp [pageLoop, hmulti, hi, PyImg.seek, PyImg.convert, image_preprocess]
  simp [decode_image_pages, hext, openImage, nFrames, hne, hurl, hkey, hloop]

/-- Witness for the amended C2 theorem at a concrete two-frame sample. -/
theorem decode_image_pages_multiframe_mismatch_warns_witness :
    decode_image_pages (some "L") c2w_sample "tif" [0] 1 = ⟨.ok (.processed 5, 2), 1⟩ :=
  decode_image_pages_multiframe_mismatch_warns (some "L") c2w_sample "tif" [5, 6] 1 0
    (by decide) (by decide) (by decide) (by decide) (by decide) (by decide)

/-- Claim C3: refuted as stated — for a well-formed single-page raster
sample with squeezing enabled, `DocProcessor.__call__` raises `TypeError`
instead of returning a squeezed record: `_decode_image_pages` hands back
the bare transformed page image (second conjunct), and
`page_images.extend(images)` then extends a list with that non-iterable
image, so the squeeze branch is never reached. -/
theorem doc_call_singlepage_raises_typeerror :
    doc_call c3_anno default_image_ext (some "L") true c3_sample = .error .typeError
    ∧ (decode_image_pages (some "L") c3_sample "tif" [0] 1).result = .ok (.processed 7, 1) :=
  ⟨by decide, by decide⟩

/-- Claim C4: a sample containing none of the configured image field
extensions makes `DocProcessor.__call__` raise (the
`assert len(page_images), 'No page images present'` failure — the code's
realization of the spec's `MissingImageError`); under `log_and_continue`
the stream adapter yields nothing for a failing sample and continues with
the rest of the stream, and every subsequently yielded record carries
`__key__` copied from its own sample. -/
theorem missing_image_error_and_skip :
    (∀ (anno_pre : String → Except PyErr AnnoRes) (image_ext : List String)
       (image_fmt : Option String) (sq : Bool) (sample : Sample) (s : String) (ar : AnnoRes),
      sampleGet sample "json" = some (.text s) →
      anno_pre s = .ok ar →
      (∀ ext ∈ image_ext, sampleGet sample ext = none) →
      doc_call anno_pre image_ext image_fmt sq sample =
        .error (.assertionError "No page images present"))
    ∧ (∀ dec (s1 : Sample) (rest : List Sample) (e : PyErr), dec s1 = .error e →
      decodeSamples dec log_and_continue (s1 :: rest) =
        ⟨(decodeSamples dec log_and_continue rest).yielded,
         (decodeSamples dec log_and_continue rest).raised,
         (decodeSamples dec log_and_continue rest).consumed + 1⟩)
    ∧ (∀ dec (s : Sample) (rest : List Sample) (r : Record), dec s = .ok (some r) →
      (decodeSamples dec log_and_continue (s :: rest)).yielded =
        dictSet r "__key__" (keyVal (sampleGet s "__key__")) ::
          (decodeSamples dec log_and_continue rest).yielded) := by
  refine ⟨?_, ?_, ?_⟩
  · intro anno_pre image_ext image_fmt sq sample s ar hj ha hnone
    have hfind : firstPresentExt sample image_ext = none :=
      firstPresentExt_eq_none sample image_ext hnone
    simp [doc_call, hj, ha, jsonLoads, hfind]
  · intro dec s1 rest e hdec
    simp [decodeSamples, hdec, log_and_continue]
  · intro dec s rest r hdec
    simp [decodeSamples, hdec]

/-- Witness for C4 at concrete inputs: the no-image sample raises, the
adapter skips it and bumps only the consumed count, and a subsequent
success is yielded with its own `__key__`. -/
theorem missing_image_error_and_skip_witness :
    doc_call c4_anno default_image_ext (some "L") true c4_noimg_sample =
      .error (.assertionError "No page images present")
    ∧ decodeSamples c4_dec log_and_continue (c4_noimg_sample :: [c4_gs]) =
        ⟨(decodeSamples c4_dec log_and_continue [c4_gs]).yielded,
         (decodeSamples c4_dec log_and_continue [c4_gs]).raised,
         (decodeSamples c4_dec log_and_continue [c4_gs]).consumed + 1⟩
    ∧ (decodeSamples c4_gdec log_and_continue (c4_gs :: [])).yielded =
        dictSet c4_grec "__key__" (keyVal (sampleGet c4_gs "__key__")) ::
          (decodeSamples c4_gdec log_and_continue []).yielded :=
  ⟨missing_image_error_and_skip.1 c4_anno default_image_ext (some "L") true
      c4_noimg_sample "a" (.plain [("text", [5])]) (by decide) (by decide) (by decide),
   missing_image_error_and_skip.2.1 c4_dec c4_noimg_sample [c4_gs]
      (.assertionError "No page images present") (by decide),
   missing_image_error_and_skip.2.2 c4_gdec c4_gs [] c4_grec (by decide)⟩

/-- Claim C5: whenever the handler returns true on every exception,
`_decode_samples` yields exactly the in-order records of the successfully
decoded samples (each with `__key__` set from its sample), consumes the
whole input, and propagates nothing; on the concrete three-sample stream
whose middle sample raises under `log_and_continue`, it yields exactly the
two records of samples 1 and 3, in that order. -/
theorem decode_samples_continue_skips :
    (∀ dec (h : PyErr → HandlerAct), (∀ e, h e = .ret true) →
      ∀ l : List Sample, decodeSamples dec h l = ⟨successRecords dec l, none, l.length⟩)
    ∧ decodeSamples c5_dec log_and_continue [c5_s1, c5_s2, c5_s3] =
        ⟨[[("text", RecVal.field (.text "1")), ("__key__", RecVal.field (.text "s1"))],
          [("text", RecVal.field (.text "3")), ("__key__", RecVal.field (.text "s3"))]],
         none, 3⟩ := by
  refine ⟨?_, by decide⟩
  intro dec h hh l
  induction l with
  | nil => simp [decodeSamples, successRecords]
  | cons s rest ih =>
    cases hdec : dec s with
    | error e => simp [decodeSamples, successRecords, hdec, hh e, ih]
    | ok o => cases o <;> simp [decodeSamples, successRecords, hdec, ih]

/-- Witness for the general C5 conjunct, instantiated on the three-sample
stream with `log_and_continue`. -/
theorem decode_samples_continue_skips_witness :
    decodeSamples c5_dec log_and_continue [c5_s1, c5_s2, c5_s3] =
      ⟨successRecords c5_dec [c5_s1, c5_s2, c5_s3], none, 3⟩ :=
  decode_samples_continue_skips.1 c5_dec log_and_continue (fun _ => rfl) [c5_s1, c5_s2, c5_s3]

/-- Claim C6: when the handler signals stop on a decoder exception —
returning a falsy value (`break`) or re-raising — `_decode_samples` ends
at once, consuming exactly the failing sample and nothing after it,
yielding nothing for it; `get_error_handler` resolves unrecognized names
to `dump_and_reraise`, under which a failure on the first sample yields
zero results and propagates the exception. -/
theorem decode_samples_stop_terminates :
    (∀ dec (h : PyErr → HandlerAct) (s : Sample) (rest : List Sample) (e : PyErr),
      dec s = .error e → h e = .ret false →
      decodeSamples dec h (s :: rest) = ⟨[], none, 1⟩)
    ∧ (∀ dec (h : PyErr → HandlerAct) (s : Sample) (rest : List Sample) (e e2 : PyErr),
      dec s = .error e → h e = .raise e2 →
      decodeSamples dec h (s :: rest) = ⟨[], some e2, 1⟩)
    ∧ (∀ name : String, lookupHandler error_handlers name = none →
      get_error_handler name = dump_and_reraise)
    ∧ (∀ dec (s : Sample) (rest : List Sample) (e : PyErr), dec s = .error e →
      decodeSamples dec dump_and_reraise (s :: rest) = ⟨[], some e, 1⟩) := by
  refine ⟨?_, ?_, ?_, ?_⟩
  · intro dec h s rest e hdec hh
    simp [decodeSamples, hdec, hh]
  · intro dec h s rest e e2 hdec hh
    simp [decodeSamples, hdec, hh]
  · intro name hname
    simp [get_error_handler, hname]
  · intro dec s rest e hdec
    simp [decodeSamples, hdec, dump_and_reraise]

/-- Witness for C6: a concrete falsy-returning handler stops the stream
after one consumed sample, `dump_and_reraise` propagates the exception
with zero yields, and an unrecognized registry name falls back to
`dump_and_reraise`. -/
theorem decode_samples_stop_terminates_witness :
    decodeSamples c6_dec stop_handler [c6_s, c6_s] = ⟨[], none, 1⟩
    ∧ decodeSamples c6_dec dump_and_reraise [c6_s, c6_s] = ⟨[], some .valueError, 1⟩
    ∧ get_error_handler "bogus_name" = dump_and_reraise :=
  ⟨decode_samples_stop_terminates.1 c6_dec stop_handler c6_s [c6_s] .valueError rfl rfl,
   decode_samples_stop_terminates.2.2.2 c6_dec c6_s [c6_s] .valueError rfl,
   decode_samples_stop_terminates.2.2.1 "bogus_name" rfl⟩

/-- Claim C7: `expand_urls("a\x7b1..2\x7d.tar::b\x7b1..2\x7d.tar", weights="2::3")`
returns the four urls `a1.tar, a2.tar, b1.tar, b2.tar` paired with weights
`[2, 2, 3, 3]`; in general, for any brace-expansion function, the result
flattens each group's expansion in order with the group's weight
replicated across every url the group expands to. -/
theorem expand_urls_weighted_expansion :
    expand_urls_weighted braceExpand "a\x7b1..2\x7d.tar::b\x7b1..2\x7d.tar" "2::3" =
      .ok (["a1.tar", "a2.tar", "b1.tar", "b2.tar"], [2, 2, 3, 3])
    ∧ (∀ (be : String → List String) (urls weights : String) (ws : List Nat),
      parseWeights (splitDoubleColon weights) = .ok ws →
      (splitDoubleColon weights).length = (splitDoubleColon urls).length →
      expand_urls_weighted be urls weights =
        .ok (concatMapL be (splitDoubleColon urls),
          concatMapL (fun p => List.replicate (be p.1).length p.2)
            ((splitDoubleColon urls).zip ws))) := by
  refine ⟨by decide, ?_⟩
  intro be urls weights ws hw hlen
  have hws : ws.length = (splitDoubleColon urls).length :=
    (parseWeights_length (splitDoubleColon weights) ws hw).trans hlen
  simp only [expand_urls_weighted, hlen, if_true, hw]
  rw [foldl_extend, concatMap_zip_fst be (splitDoubleColon urls) ws hws.symm]
  simp

/-- Witness for the general C7 conjunct at a fresh concrete input
(one literal group and one two-element brace group). -/
theorem expand_urls_weighted_expansion_witness :
    expand_urls_weighted braceExpand "x.tar::y\x7b3..4\x7d.tar" "7::9" =
      .ok (concatMapL braceExpand (splitDoubleColon "x.tar::y\x7b3..4\x7d.tar"),
        concatMapL (fun p => List.replicate (braceExpand p.1).length p.2)
          ((splitDoubleColon "x.tar::y\x7b3..4\x7d.tar").zip [7, 9])) :=
  expand_urls_weighted_expansion.2 braceExpand "x.tar::y\x7b3..4\x7d.tar" "7::9" [7, 9]
    (by decide) (by decide)

/-- Claim C8: whenever the `::`-split url-group and weight counts differ,
`expand_urls` fails with the count-mismatch assertion instead of returning
a result; in particular for 2 url groups against 3 weights. -/
theorem expand_urls_weight_count_mismatch :
    (∀ (be : String → List String) (urls weights : String),
      (splitDoubleColon weights).length ≠ (splitDoubleColon urls).length →
      expand_urls_weighted be urls weights = .error (.assertionError count_mismatch_msg))
    ∧ expand_urls_weighted braceExpand "a\x7b1..2\x7d.tar::b.tar" "1::1::1" =
        .error (.assertionError count_mismatch_msg) := by
  refine ⟨?_, by decide⟩
  intro be urls weights h
  simp [expand_urls_weighted, h]

/-- Witness for the general C8 conjunct at the concrete mismatching input. -/
theorem expand_urls_weight_count_mismatch_witness :
    expand_urls_weighted braceExpand "a\x7b1..2\x7d.tar::b.tar" "1::1::1" =
      .error (.assertionError count_mismatch_msg) :=
  expand_urls_weight_count_mismatch.1 braceExpand "a\x7b1..2\x7d.tar::b.tar" "1::1::1"
    (by decide)

/-- Claim C9: on the no-worker-context fallback path the derived seed is
`rank * max(1024, world_size) + worker`, plus
`increment * max(1024, num_workers)` when the increment is nonzero; with
`RANK=2, WORLD_SIZE=4, WORKER=1, NUM_WORKERS=3` this gives 2049 for
increment 0 and 7169 for increment 5. -/
theorem pytorch_worker_seed_fallback :
    (∀ r w wk nw inc : Int, inc ≠ 0 →
      pytorch_worker_seed none ⟨some (r, w), some (wk, nw)⟩ inc =
        r * max 1024 w + wk + inc * max 1024 nw)
    ∧ (∀ r w wk nw : Int,
      pytorch_worker_seed none ⟨some (r, w), some (wk, nw)⟩ 0 = r * max 1024 w + wk)
    ∧ pytorch_worker_seed none ⟨some (2, 4), some (1, 3)⟩ 0 = 2049
    ∧ pytorch_worker_seed none ⟨some (2, 4), some (1, 3)⟩ 5 = 7169 := by
  refine ⟨?_, ?_, by decide, by decide⟩
  · intro r w wk nw inc hinc
    simp [pytorch_worker_seed, hinc]
  · intro r w wk nw
    simp [pytorch_worker_seed]

/-- Witness for the nonzero-increment C9 conjunct at the concrete
environment. -/
theorem pytorch_worker_seed_fallback_witness :
    pytorch_worker_seed none ⟨some (2, 4), some (1, 3)⟩ 5 =
      2 * max 1024 4 + 1 + 5 * max 1024 3 :=
  pytorch_worker_seed_fallback.1 2 4 1 3 5 (by decide)

/-- Claim C10: on every successful decode `_decode_samples` assigns
`result["__key__"] = sample.get("__key__")` before yielding; the
assignment overwrites any `__key__` the decoder produced, and a sample
with no `__key__` stores Python `None` there. -/
theorem decode_samples_key_overwrite :
    (∀ dec (h : PyErr → HandlerAct) (s : Sample) (rest : List Sample) (r : Record),
      dec s = .ok (some r) →
      (decodeSamples dec h (s :: rest)).yielded =
        dictSet r "__key__" (keyVal (sampleGet s "__key__")) ::
          (decodeSamples dec h rest).yielded)
    ∧ (∀ (r : Record) (v : Option FieldVal),
      dictGet (dictSet r "__key__" (keyVal v)) "__key__" = some (keyVal v))
    ∧ keyVal none = RecVal.pyNone := by
  refine ⟨?_, ?_, rfl⟩
  · intro dec h s rest r hdec
    simp [decodeSamples, hdec]
  · intro r v
    exact dictGet_dictSet r "__key__" (keyVal v)

/-- Witness for C10: a decoder-produced `__key__` of a keyless sample is
overwritten with `None` in the yielded record. -/
theorem decode_samples_key_overwrite_witness :
    (decodeSamples c10_dec log_and_continue [c10_sample]).yielded =
      [[("__key__", RecVal.pyNone), ("text", RecVal.av 1)]]
    ∧ dictGet (dictSet [("__key__", RecVal.av 99), ("text", RecVal.av 1)]
        "__key__" (keyVal none)) "__key__" = some (keyVal none) := by
  constructor
  · have h := decode_samples_key_overwrite.1 c10_dec log_and_continue c10_sample [] _ rfl
    rw [h]
    decide
  · exact decode_samples_key_overwrite.2.1 [("__key__", RecVal.av 99), ("text", RecVal.av 1)] none
